import Mathlib

/-!
Shallow embedding of `src/app.rs` of samcarey/aetherweave: a 2D solar-system
visualization. Bodies carry a position and a velocity (`egui::Vec2`, here
modelled as pairs of reals, the idealization of `f32` arithmetic); the per-frame
`App::update` advances every body except the Sun by `velocity * scaled_dt`,
renders the bodies and their dotted orbit rings through the plot transform,
hit-tests an optional primary click against the projected circles to update the
selection, and shows a stats window for the selected body.

The first part of the file is definitions translated from the source; theorems
about the claims follow.
-/

set_option autoImplicit false

namespace Aetherweave

noncomputable section

/-- `egui::Vec2` is modelled as a pair of reals. -/
abbrev Vec2 := ℝ × ℝ

/-- Componentwise vector addition (`egui::Vec2: Add`). -/
def vadd (a b : Vec2) : Vec2 := (a.1 + b.1, a.2 + b.2)

/-- Componentwise vector subtraction (`egui::Vec2: Sub`, used for `center - click`). -/
def vsub (a b : Vec2) : Vec2 := (a.1 - b.1, a.2 - b.2)

/-- Right scalar multiplication `v * c` (`egui::Vec2 * f32`, as in `current_vel * dt`). -/
def vscale (a : Vec2) (c : ℝ) : Vec2 := (a.1 * c, a.2 * c)

/-- `egui::Vec2::length`: `sqrt(x*x + y*y)`. -/
def length (a : Vec2) : ℝ := Real.sqrt (a.1 * a.1 + a.2 * a.2)

/-- Dot product of two vectors (used to state tangentiality of the orbit velocity). -/
def dot (a b : Vec2) : ℝ := a.1 * b.1 + a.2 * b.2

/-- `const G: f32 = 6.67430e-11;` (src/app.rs line 39). -/
def G : ℝ := 6.67430e-11

/-- `const EARTH_MASS_KG: f32 = 5.97219e24;` (src/app.rs line 40). -/
def EARTH_MASS_KG : ℝ := 5.97219e24

/-- `const SIMULATION_SPEED: f32 = 60.0 * 24.0 * 365.0;` (src/app.rs line 42). -/
def SIMULATION_SPEED : ℝ := 60.0 * 24.0 * 365.0

/-- `let sun_mass = 1.9891e30;` hard-coded inside `Body::orbiting` (src/app.rs line 57). -/
def sun_mass : ℝ := 1.9891e30

/-- The `Body` struct (src/app.rs lines 29-37). `Color32` is irrelevant to every
claim and is modelled as an opaque numeric tag. The `Cell` interior mutability is
modelled by functional update. -/
structure Body where
  name : String
  mass_kg : ℝ
  position : Vec2
  color : Nat
  velocity : Vec2

/-- `Body::orbiting` (src/app.rs lines 45-73), translated literally:
`radius = orbital_radius_km * 1e3`, `radians = degrees.to_radians()`
(`f32::to_radians` is multiplication by `π / 180`),
`position = (radius * cos, radius * sin)`,
`velocity_magnitude = sqrt(G * sun_mass / radius)`,
`velocity = (-velocity_magnitude * sin, velocity_magnitude * cos)`.
Note: real-number division `x / 0 = 0` in Lean differs from IEEE `f32`
(`x / 0.0 = +inf` for `x > 0`); the `F32`-valued model below captures the IEEE
special values for the `radius = 0` case. -/
def Body.orbiting (name : String) (mass_kg orbital_radius_km : ℝ) (color : Nat)
    (degrees : ℝ) : Body :=
  let radius := orbital_radius_km * 1e3
  let radians := degrees * (Real.pi / 180)
  let position : Vec2 := (radius * Real.cos radians, radius * Real.sin radians)
  let velocity_magnitude := Real.sqrt (G * sun_mass / radius)
  let velocity : Vec2 :=
    (-velocity_magnitude * Real.sin radians, velocity_magnitude * Real.cos radians)
  { name := name, mass_kg := mass_kg, position := position, color := color,
    velocity := velocity }

/-- `Body::update_position` (src/app.rs lines 75-82):
`new_pos = current_pos + current_vel * dt`; only `position` is written. -/
def Body.update_position (b : Body) (dt : ℝ) : Body :=
  { b with position := vadd b.position (vscale b.velocity dt) }

/-- `for body in self.bodies.iter().skip(1) { body.update_position(scaled_dt); }`
(src/app.rs lines 129-132): every body except the first (the Sun) is advanced. -/
def advanceBodies (bodies : List Body) (scaled_dt : ℝ) : List Body :=
  match bodies with
  | [] => []
  | sun :: rest => sun :: rest.map (fun b => b.update_position scaled_dt)

/-- IEEE-754 special-value model of `f32`: finite values are carried as exact
reals (rounding is immaterial to the special-value propagation proved below,
and none of the finite intermediates of `Body::orbiting` at radius 0 overflows
`f32`). Negative zero is not distinguished from zero. -/
inductive F32 where
  | fin (x : ℝ)
  | inf
  | neginf
  | nan

/-- IEEE `f32` negation on the special-value model. -/
def F32.neg : F32 → F32
  | fin x => fin (-x)
  | inf => neginf
  | neginf => inf
  | nan => nan

/-- IEEE `f32` multiplication on the special-value model: `nan` is absorbing,
`±inf * 0 = nan`, `±inf` times a nonzero finite follows the sign rule. -/
def F32.mul : F32 → F32 → F32
  | nan, _ => nan
  | _, nan => nan
  | fin a, fin b => fin (a * b)
  | fin a, inf => if 0 < a then inf else if a < 0 then neginf else nan
  | fin a, neginf => if 0 < a then neginf else if a < 0 then inf else nan
  | inf, fin b => if 0 < b then inf else if b < 0 then neginf else nan
  | neginf, fin b => if 0 < b then neginf else if b < 0 then inf else nan
  | inf, inf => inf
  | inf, neginf => neginf
  | neginf, inf => neginf
  | neginf, neginf => inf

/-- IEEE `f32` division on the special-value model: a positive finite divided
by (positive) zero is `+inf`, `0 / 0 = nan`, a finite over `±inf` is zero. -/
def F32.div : F32 → F32 → F32
  | nan, _ => nan
  | _, nan => nan
  | fin a, fin b =>
      if b = 0 then (if 0 < a then inf else if a < 0 then neginf else nan)
      else fin (a / b)
  | fin _, inf => fin 0
  | fin _, neginf => fin 0
  | inf, fin b => if 0 ≤ b then inf else neginf
  | neginf, fin b => if 0 ≤ b then neginf else inf
  | inf, inf => nan
  | inf, neginf => nan
  | neginf, inf => nan
  | neginf, neginf => nan

/-- IEEE `f32` square root on the special-value model: `sqrt(+inf) = +inf`,
square roots of negative values are `nan`. -/
def F32.sqrt : F32 → F32
  | nan => nan
  | inf => inf
  | neginf => nan
  | fin x => if x < 0 then nan else fin (Real.sqrt x)

/-- IEEE `f32` sine: `nan` on `nan` and `±inf`. -/
def F32.sin : F32 → F32
  | fin x => fin (Real.sin x)
  | _ => nan

/-- IEEE `f32` cosine: `nan` on `nan` and `±inf`. -/
def F32.cos : F32 → F32
  | fin x => fin (Real.cos x)
  | _ => nan

/-- `f32::to_radians`: multiplication by `π / 180`. -/
def F32.to_radians (x : F32) : F32 := x.mul (fin (Real.pi / 180))

/-- The position/velocity computation of `Body::orbiting` (src/app.rs lines
52-64) under the `F32` special-value model, translated literally:
`radius = orbital_radius_km * 1e3`, `radians = degrees.to_radians()`,
`position = (radius * cos, radius * sin)`,
`velocity_magnitude = (G * sun_mass / radius).sqrt()`,
`velocity = (-velocity_magnitude * sin, velocity_magnitude * cos)`.
There is no special case for `radius = 0` anywhere in the source. -/
def orbitingF32 (orbital_radius_km degrees : F32) : (F32 × F32) × (F32 × F32) :=
  let radius := orbital_radius_km.mul (.fin 1e3)
  let radians := degrees.to_radians
  let position := (radius.mul radians.cos, radius.mul radians.sin)
  let velocity_magnitude := (((F32.fin G).mul (.fin sun_mass)).div radius).sqrt
  let velocity := (velocity_magnitude.neg.mul radians.sin,
                   velocity_magnitude.mul radians.cos)
  (position, velocity)

/-- The pointer buttons of `egui::PointerButton` that matter here. -/
inductive Button where
  | primary
  | secondary
  | middle

/-- The `egui::Event`s visible to `UiExt::get_click`: pointer-button events with
their position, and everything else collapsed into `other`. -/
inductive Event where
  | pointerButton (button : Button) (pressed : Bool) (pos : Vec2)
  | other

/-- The pattern of `UiExt::get_click` (src/app.rs lines 263-275): a
primary-button press yields its position, every other event yields nothing. -/
def pressPos : Event → Option Vec2
  | .pointerButton .primary true pos => some pos
  | _ => none

/-- `UiExt::get_click` (src/app.rs lines 261-277): the first primary-button
press among this frame's events, if any (`iter().find_map(...)`). -/
def get_click (events : List Event) : Option Vec2 :=
  events.findSome? pressPos

/-- The body loop of `App::update` (src/app.rs lines 180-214) restricted to its
selection effect: for each body in order, if a click happened within
`body_radius + tol` of the body's projected center, `self.selected` is
overwritten with that body and `clicked_on_body` is set. The accumulator is
`(selected, clicked_on_body)`; `i` is the index of the first body of `bodies`
in the original list. In the source `tol` is the literal `5.`. -/
def selLoop (proj : Vec2 → Vec2) (click : Option Vec2) (body_radius tol : ℝ) :
    List Body → Nat → Option Nat × Bool → Option Nat × Bool
  | [], _, acc => acc
  | b :: rest, i, acc =>
      let acc' :=
        match click with
        | some c =>
            if length (vsub (proj b.position) c) < body_radius + tol
            then (some i, true) else acc
        | none => acc
      selLoop proj click body_radius tol rest (i + 1) acc'

/-- The selection after one frame (src/app.rs lines 179-217): the body loop
above followed by
`if click.is_some() && !clicked_on_body { self.selected = Default::default(); }`.
The `Weak<Body>` selection is modelled as an optional index into the body list
(bodies are never removed, so an index is live exactly when it is in range). -/
def selectionAfterFrame (proj : Vec2 → Vec2) (click : Option Vec2)
    (body_radius tol : ℝ) (bodies : List Body) (sel : Option Nat) : Option Nat :=
  let r := selLoop proj click body_radius tol bodies 0 (sel, false)
  if click.isSome && !r.2 then none else r.1

/-- Hit-test resolution of a click: the selection the frame loop produces when
nothing was selected before (so the result is exactly which body, if any, the
click resolves to). -/
def resolveClick (proj : Vec2 → Vec2) (click : Option Vec2) (body_radius tol : ℝ)
    (bodies : List Body) : Option Nat :=
  selectionAfterFrame proj click body_radius tol bodies none

/-- Modelled from the spec words of claim C4 ("the first body in iteration
order whose projected screen-space distance to the click is strictly less than
`body_pixel_radius + tolerance_pixels`"), for comparison with the source
behaviour: the first hit starting at index `i`. -/
def specFirstHitFrom (proj : Vec2 → Vec2) (c : Vec2) (body_radius tol : ℝ) :
    List Body → Nat → Option Nat
  | [], _ => none
  | b :: rest, i =>
      if length (vsub (proj b.position) c) < body_radius + tol then some i
      else specFirstHitFrom proj c body_radius tol rest (i + 1)

/-- The spec-worded first-hit resolver over a whole body list. -/
def specFirstHit (proj : Vec2 → Vec2) (c : Vec2) (body_radius tol : ℝ)
    (bodies : List Body) : Option Nat :=
  specFirstHitFrom proj c body_radius tol bodies 0

/-- The last body (in iteration order, indices from `i`) within
`body_radius + tol` of the click - the quantity the source loop actually
leaves in `self.selected`, since every later hit overwrites an earlier one. -/
def lastHitFrom (proj : Vec2 → Vec2) (c : Vec2) (body_radius tol : ℝ) :
    List Body → Nat → Option Nat
  | [], _ => none
  | b :: rest, i =>
      match lastHitFrom proj c body_radius tol rest (i + 1) with
      | some j => some j
      | none =>
          if length (vsub (proj b.position) c) < body_radius + tol then some i
          else none

/-- The last matching body over a whole body list. -/
def lastHit (proj : Vec2 → Vec2) (c : Vec2) (body_radius tol : ℝ)
    (bodies : List Body) : Option Nat :=
  lastHitFrom proj c body_radius tol bodies 0

/-- The `App` struct's state (src/app.rs lines 11-19): the body list, the
`Option<Instant>` of the previous frame (an instant is modelled as a real
timestamp in seconds), and the `Weak<Body>` selection modelled as an optional
index. -/
structure AppState where
  bodies : List Body
  last_update : Option ℝ
  selected : Option Nat

/-- The time step at the top of `App::update` (src/app.rs lines 122-134): when
a previous instant exists, every body except the Sun advances by
`dt * SIMULATION_SPEED` with `dt = now - last_update`; on the first frame
(`last_update == None`) no body moves; either way `last_update` becomes `now`. -/
def timeStep (st : AppState) (now : ℝ) : AppState :=
  match st.last_update with
  | none => { st with last_update := some now }
  | some last_update =>
      let dt := now - last_update
      let scaled_dt := dt * SIMULATION_SPEED
      { st with bodies := advanceBodies st.bodies scaled_dt,
                last_update := some now }

/-- The dotted orbit ring drawn for a body (src/app.rs lines 163-175):
`radius = position.length()`, and one point `(radius * cos rad, radius * sin rad)`
for every even degree `deg` in `0..=360`, `rad = (deg as f64).to_radians()`. -/
def ringOf (position : Vec2) : List Vec2 :=
  let radius := length position
  ((List.range 361).filter (fun deg => deg % 2 = 0)).map
    (fun deg =>
      let rad := (deg : ℝ) * (Real.pi / 180)
      (radius * Real.cos rad, radius * Real.sin rad))

/-- One key/value row of the stats window; `decimals` records the `{:.1}`
format precision, `suffix` the text after the number. -/
structure StatsRow where
  label : String
  value : ℝ
  decimals : Nat
  suffix : String

/-- The stats window contents for a selected body (src/app.rs lines 220-241):
window title `body.name`; row `Mass:` with value `body.mass_kg / EARTH_MASS_KG`
formatted `{:.1}` and suffix `x Earth`; row `Velocity:` with value
`body.velocity.length() / 1000.0` formatted `{:.1}` and suffix `km/s`. Both
rows are rendered unconditionally whenever a body is selected. -/
def statsFor (b : Body) : String × List StatsRow :=
  (b.name,
   [{ label := "Mass:", value := b.mass_kg / EARTH_MASS_KG, decimals := 1,
      suffix := " x Earth" },
    { label := "Velocity:", value := length b.velocity / 1000, decimals := 1,
      suffix := " km/s" }])

/-- The outputs of one frame that the claims talk about: the plot points (one
per body, at its physical position), the orbit rings, the painter overlay
circle centers (projected positions), and the optional stats window. -/
structure FrameOutput where
  plotPoints : List Vec2
  rings : List (List Vec2)
  overlayCenters : List Vec2
  stats : Option (String × List StatsRow)

/-- One call of `App::update` (src/app.rs lines 121-242), in source order:
1. the time step advances every body but the Sun (lines 122-134);
2. the plot closure draws each body at its (just advanced) position together
   with its orbit ring (lines 150-177);
3. the overlay loop projects each body through the plot transform, draws its
   circle, and hit-tests the click, updating the selection (lines 179-217);
4. the stats window is shown for the body the (possibly just updated)
   selection refers to (lines 220-241).
The plot transform is an opaque external collaborator, passed as `proj`. -/
def frame (st : AppState) (now : ℝ) (events : List Event) (proj : Vec2 → Vec2) :
    AppState × FrameOutput :=
  let st1 := timeStep st now
  let click := get_click events
  let body_radius : ℝ := 10
  let plotPoints := st1.bodies.map Body.position
  let rings := st1.bodies.map (fun b => ringOf b.position)
  let overlayCenters := st1.bodies.map (fun b => proj b.position)
  let selected := selectionAfterFrame proj click body_radius 5 st1.bodies st.selected
  let stats := (selected.bind (fun i => st1.bodies[i]?)).map statsFor
  ({ bodies := st1.bodies, last_update := st1.last_update, selected := selected },
   { plotPoints := plotPoints, rings := rings, overlayCenters := overlayCenters,
     stats := stats })

/-- A body sitting at the origin (concrete test fixture). -/
def bodyA : Body :=
  { name := "A", mass_kg := 1, position := (0, 0), color := 0, velocity := (0, 0) }

/-- A body at `(3, 4)`, 5 screen units from the origin under the identity
projection (concrete test fixture). -/
def bodyB : Body :=
  { name := "B", mass_kg := 1, position := (3, 4), color := 1, velocity := (0, 0) }

/-- A concrete app state with one body and no previous frame instant. -/
def exState1 : AppState :=
  { bodies := [bodyA], last_update := none, selected := some 0 }

/-- A concrete app state with two bodies, no previous frame instant, and the
second body selected. -/
def exState2 : AppState :=
  { bodies := [bodyA, bodyB], last_update := none, selected := some 1 }

/-! ### Helper lemmas about the selection loop -/

/-- With no click this frame, the body loop leaves the accumulator alone. -/
lemma selLoop_click_none (proj : Vec2 → Vec2) (body_radius tol : ℝ)
    (bodies : List Body) :
    ∀ (i : Nat) (acc : Option Nat × Bool),
      selLoop proj none body_radius tol bodies i acc = acc := by
  induction bodies with
  | nil => intro i acc; rfl
  | cons b rest ih => intro i acc; simpa [selLoop] using ih (i + 1) acc

/-- With a click, the body loop computes the last hit (later hits overwrite
earlier ones), falling back to the incoming accumulator when nothing hits. -/
lemma selLoop_click_some (proj : Vec2 → Vec2) (c : Vec2) (body_radius tol : ℝ)
    (bodies : List Body) :
    ∀ (i : Nat) (sel : Option Nat) (clicked : Bool),
      selLoop proj (some c) body_radius tol bodies i (sel, clicked) =
        match lastHitFrom proj c body_radius tol bodies i with
        | some j => (some j, true)
        | none => (sel, clicked) := by
  induction bodies with
  | nil => intro i sel clicked; rfl
  | cons b rest ih =>
    intro i sel clicked
    by_cases hb : length (vsub (proj b.position) c) < body_radius + tol
    · simp only [selLoop, lastHitFrom, if_pos hb]
      rw [ih (i + 1) (some i) true]
      cases hrest : lastHitFrom proj c body_radius tol rest (i + 1) <;> simp
    · simp only [selLoop, lastHitFrom, if_neg hb]
      rw [ih (i + 1) sel clicked]
      cases hrest : lastHitFrom proj c body_radius tol rest (i + 1) <;> simp

/-- The selection after the frame loop, resolved: no click leaves the selection
alone; a click replaces it by the last body within the threshold, or clears it
when none is. -/
lemma selectionAfterFrame_resolves (proj : Vec2 → Vec2) (click : Option Vec2)
    (body_radius tol : ℝ) (bodies : List Body) (sel : Option Nat) :
    selectionAfterFrame proj click body_radius tol bodies sel =
      match click with
      | none => sel
      | some c => lastHit proj c body_radius tol bodies := by
  cases click with
  | none =>
    simp [selectionAfterFrame, selLoop_click_none]
  | some c =>
    unfold selectionAfterFrame
    rw [selLoop_click_some]
    cases h : lastHitFrom proj c body_radius tol bodies 0 <;>
      simp [lastHit, h]

/-- If no body is within the threshold of the click, the loop finds no hit. -/
lemma lastHitFrom_eq_none (proj : Vec2 → Vec2) (c : Vec2) (body_radius tol : ℝ) :
    ∀ (bodies : List Body) (i : Nat),
      (∀ b ∈ bodies, ¬ length (vsub (proj b.position) c) < body_radius + tol) →
      lastHitFrom proj c body_radius tol bodies i = none := by
  intro bodies
  induction bodies with
  | nil => intro i _; rfl
  | cons b rest ih =>
    intro i h
    have hb := h b (List.mem_cons_self b rest)
    simp only [lastHitFrom, ih (i + 1) (fun x hx => h x (List.mem_cons_of_mem b hx)),
      if_neg hb]

/-- If some member body is within the threshold of the click, the loop finds a
hit. -/
lemma lastHitFrom_isSome (proj : Vec2 → Vec2) (c : Vec2) (body_radius tol : ℝ) :
    ∀ (bodies : List Body) (i : Nat) (b : Body), b ∈ bodies →
      length (vsub (proj b.position) c) < body_radius + tol →
      (lastHitFrom proj c body_radius tol bodies i).isSome = true := by
  intro bodies
  induction bodies with
  | nil => intro i b hb; exact absurd hb (List.not_mem_nil b)
  | cons b' rest ih =>
    intro i b hb hhit
    rcases List.mem_cons.1 hb with rfl | hmem
    · cases hrest : lastHitFrom proj c body_radius tol rest (i + 1) with
      | some j => simp [lastHitFrom, hrest]
      | none => simp [lastHitFrom, hrest, if_pos hhit]
    · have := ih (i + 1) b hmem hhit
      cases hrest : lastHitFrom proj c body_radius tol rest (i + 1) with
      | some j => simp [lastHitFrom, hrest]
      | none => rw [hrest] at this; simp at this

/-- The screen distance from a point to itself is zero. -/
lemma length_vsub_self (c : Vec2) : length (vsub c c) = 0 := by
  simp [length, vsub]

/-! ### Claim theorems -/

/-- Claim C1 - `update_position` adds exactly `velocity * dt` to the position
componentwise, leaves the velocity (and every other field) unchanged, and no
per-frame operation ever writes a velocity: both the integrator loop and a
whole frame preserve every body's velocity. -/
theorem update_position_adds_velocity_times_dt :
    (∀ (b : Body) (dt : ℝ),
      (b.update_position dt).position
          = (b.position.1 + b.velocity.1 * dt, b.position.2 + b.velocity.2 * dt)
        ∧ (b.update_position dt).velocity = b.velocity
        ∧ (b.update_position dt).name = b.name
        ∧ (b.update_position dt).mass_kg = b.mass_kg)
    ∧ (∀ (bodies : List Body) (scaled_dt : ℝ),
        (advanceBodies bodies scaled_dt).map Body.velocity = bodies.map Body.velocity)
    ∧ ∀ (st : AppState) (now : ℝ) (events : List Event) (proj : Vec2 → Vec2),
        (frame st now events proj).1.bodies.map Body.velocity
          = st.bodies.map Body.velocity := by
  have hadv : ∀ (bodies : List Body) (scaled_dt : ℝ),
      (advanceBodies bodies scaled_dt).map Body.velocity = bodies.map Body.velocity := by
    intro bodies scaled_dt
    cases bodies with
    | nil => rfl
    | cons sun rest => simp [advanceBodies, Body.update_position]
  refine ⟨fun b dt => ⟨rfl, rfl, rfl, rfl⟩, hadv, fun st now events proj => ?_⟩
  show (timeStep st now).bodies.map Body.velocity = st.bodies.map Body.velocity
  cases h : st.last_update <;> simp [timeStep, h, hadv]

/-- Claim C7 - `update_position` with `dt = 0` is a no-op: the body is unchanged
(in particular its position is exactly its previous position). -/
theorem update_position_zero_dt_noop :
    ∀ b : Body, b.update_position 0 = b := by
  intro b
  simp [Body.update_position, vadd, vscale]

/-- Claim C2 - for `orbital_radius_km > 0`, `Body.orbiting` places the body at
`r * (cos θ, sin θ)` with `r = orbital_radius_km * 1000` and `θ` the start angle
in radians; the velocity has magnitude `sqrt (G * sun_mass / r)`
(`G = 6.67430e-11`, `sun_mass = 1.9891e30`), equals `(-sin θ, cos θ)` scaled by
that magnitude, and is orthogonal to the position. -/
theorem orbiting_circular_orbit (name : String) (mass_kg orbital_radius_km : ℝ)
    (color : Nat) (degrees : ℝ) (h : 0 < orbital_radius_km) :
    (Body.orbiting name mass_kg orbital_radius_km color degrees).position
        = (orbital_radius_km * 1e3 * Real.cos (degrees * (Real.pi / 180)),
           orbital_radius_km * 1e3 * Real.sin (degrees * (Real.pi / 180)))
    ∧ (Body.orbiting name mass_kg orbital_radius_km color degrees).velocity
        = vscale (-Real.sin (degrees * (Real.pi / 180)),
                  Real.cos (degrees * (Real.pi / 180)))
            (Real.sqrt (G * sun_mass / (orbital_radius_km * 1e3)))
    ∧ length (Body.orbiting name mass_kg orbital_radius_km color degrees).velocity
        = Real.sqrt (G * sun_mass / (orbital_radius_km * 1e3))
    ∧ dot (Body.orbiting name mass_kg orbital_radius_km color degrees).velocity
          (Body.orbiting name mass_kg orbital_radius_km color degrees).position = 0 := by
  set θ := degrees * (Real.pi / 180) with hθ
  set m := Real.sqrt (G * sun_mass / (orbital_radius_km * 1e3)) with hm
  refine ⟨rfl, ?_, ?_, ?_⟩
  · show ((-m * Real.sin θ, m * Real.cos θ) : Vec2) = _
    simp only [vscale, Prod.mk.injEq]
    exact ⟨by ring, by ring⟩
  · show Real.sqrt (-m * Real.sin θ * (-m * Real.sin θ)
        + m * Real.cos θ * (m * Real.cos θ)) = m
    have hsq : -m * Real.sin θ * (-m * Real.sin θ) + m * Real.cos θ * (m * Real.cos θ)
        = m ^ 2 * (Real.sin θ ^ 2 + Real.cos θ ^ 2) := by ring
    rw [hsq, Real.sin_sq_add_cos_sq, mul_one, Real.sqrt_sq (Real.sqrt_nonneg _)]
  · show -m * Real.sin θ * (orbital_radius_km * 1e3 * Real.cos θ)
        + m * Real.cos θ * (orbital_radius_km * 1e3 * Real.sin θ) = 0
    ring

/-- Witness for C2: the Earth body of the default roster
(`Body::orbiting("Earth", EARTH_MASS_KG, 1.5e8, BLUE, 40.)`). -/
theorem orbiting_circular_orbit_witness :
    (0 : ℝ) < 1.5e8
    ∧ length (Body.orbiting "Earth" EARTH_MASS_KG 1.5e8 3 40).velocity
        = Real.sqrt (G * sun_mass / (1.5e8 * 1e3))
    ∧ dot (Body.orbiting "Earth" EARTH_MASS_KG 1.5e8 3 40).velocity
          (Body.orbiting "Earth" EARTH_MASS_KG 1.5e8 3 40).position = 0 :=
  ⟨by norm_num,
   (orbiting_circular_orbit "Earth" EARTH_MASS_KG 1.5e8 3 40 (by norm_num)).2.2.1,
   (orbiting_circular_orbit "Earth" EARTH_MASS_KG 1.5e8 3 40 (by norm_num)).2.2.2⟩

/-- Claim C3 is refuted by the code: constructing the central body
(`Body::orbiting("Sun", 1.9891e30, 0., GOLD, 0.)`, radius 0, angle 0) divides
by zero with no special case, so under IEEE `f32` semantics the Sun's velocity
is `(nan, +inf)`, not `(0, 0)`; its position is `(0, 0)` and the integration
loop does skip the first body, but the zero-velocity special case the claim
asserts does not exist. -/
theorem sun_velocity_not_special_cased :
    (orbitingF32 (.fin 0) (.fin 0) = ((F32.fin 0, F32.fin 0), (F32.nan, F32.inf))
      ∧ (F32.nan, F32.inf) ≠ (F32.fin 0, F32.fin 0))
    ∧ ∀ (sun : Body) (rest : List Body) (dt : ℝ),
        (advanceBodies (sun :: rest) dt).head? = some sun := by
  refine ⟨⟨?_, by simp⟩, fun sun rest dt => rfl⟩
  have hGM : 0 < G * sun_mass := by norm_num [G, sun_mass]
  simp [orbitingF32, F32.to_radians, F32.mul, F32.div, F32.sqrt, F32.neg,
    F32.sin, F32.cos, hGM]

/-- Claim C4 as stated is false: the hit-test loop has no early exit, so each
later body within the threshold overwrites the selection. With two bodies at
distances 0 and 5 from the click (both under the threshold `10 + 5`), the code
selects index 1 (the last match), while the claimed first-match policy names
index 0. -/
theorem hit_test_takes_last_not_first :
    resolveClick id (some ((0 : ℝ), (0 : ℝ))) 10 5 [bodyA, bodyB] = some 1
    ∧ specFirstHit id ((0 : ℝ), (0 : ℝ)) 10 5 [bodyA, bodyB] = some 0
    ∧ (some 1 : Option Nat) ≠ some 0 := by
  have hA : length (vsub (id bodyA.position) ((0 : ℝ), (0 : ℝ))) < 10 + 5 := by
    show length (vsub ((0 : ℝ), (0 : ℝ)) ((0 : ℝ), (0 : ℝ))) < 10 + 5
    rw [length_vsub_self]
    norm_num
  have hB : length (vsub (id bodyB.position) ((0 : ℝ), (0 : ℝ))) < 10 + 5 := by
    show length (vsub ((3 : ℝ), (4 : ℝ)) ((0 : ℝ), (0 : ℝ))) < 10 + 5
    have h1 : vsub ((3 : ℝ), (4 : ℝ)) ((0 : ℝ), (0 : ℝ)) = ((3 : ℝ), (4 : ℝ)) := by
      simp [vsub]
    rw [h1, length,
      show (3 : ℝ) * 3 + 4 * 4 = 5 ^ 2 by norm_num,
      Real.sqrt_sq (by norm_num : (0 : ℝ) ≤ 5)]
    norm_num
  refine ⟨?_, ?_, by simp⟩
  · rw [resolveClick, selectionAfterFrame_resolves]
    show lastHit id ((0 : ℝ), (0 : ℝ)) 10 5 [bodyA, bodyB] = some 1
    simp only [lastHit, lastHitFrom, if_pos hB, if_pos hA]
  · simp only [specFirstHit, specFirstHitFrom, if_pos hA]

/-- Claim C4 amended - the selection resolves to the LAST body in iteration
order whose projected screen distance to the click is strictly below
`body_radius + tol` (each later hit overwrites earlier ones); it resolves to no
body when the click is absent or no body is within the threshold; and a pointer
exactly at some body's projected center resolves to a body for any `tol ≥ 0`
(the source `body_radius` is 10). -/
theorem hit_test_amended :
    (∀ (proj : Vec2 → Vec2) (click : Option Vec2) (body_radius tol : ℝ)
        (bodies : List Body),
      resolveClick proj click body_radius tol bodies =
        match click with
        | none => none
        | some c => lastHit proj c body_radius tol bodies)
    ∧ (∀ (proj : Vec2 → Vec2) (c : Vec2) (body_radius tol : ℝ) (bodies : List Body),
        (∀ b ∈ bodies, ¬ length (vsub (proj b.position) c) < body_radius + tol) →
        lastHit proj c body_radius tol bodies = none)
    ∧ ∀ (proj : Vec2 → Vec2) (c : Vec2) (tol : ℝ) (bodies : List Body) (b : Body),
        0 ≤ tol → b ∈ bodies → proj b.position = c →
        (lastHit proj c 10 tol bodies).isSome = true := by
  refine ⟨?_, ?_, ?_⟩
  · intro proj click body_radius tol bodies
    exact selectionAfterFrame_resolves proj click body_radius tol bodies none
  · intro proj c body_radius tol bodies h
    exact lastHitFrom_eq_none proj c body_radius tol bodies 0 h
  · intro proj c tol bodies b htol hmem hproj
    apply lastHitFrom_isSome proj c 10 tol bodies 0 b hmem
    rw [hproj, length_vsub_self]
    linarith

/-- Witness for the amended C4: a pointer exactly at the projected center of
the single body in the list resolves to a body with zero tolerance. -/
theorem hit_test_amended_witness :
    (0 : ℝ) ≤ 0 ∧ (lastHit id ((0 : ℝ), (0 : ℝ)) 10 0 [bodyA]).isSome = true :=
  ⟨le_refl 0,
   hit_test_amended.2.2 id ((0 : ℝ), (0 : ℝ)) 0 [bodyA] bodyA (le_refl 0)
     (List.mem_singleton.2 rfl) rfl⟩

/-- Claim C5 - the selection state machine over frames: a frame whose events
contain a primary-button press transitions the selection to the body the click
hit-tests to (`lastHit`), or to `none` when it hits no body; a frame with no
primary-button press (in particular one whose events are all non-press events)
leaves the selection unchanged. -/
theorem selection_state_machine :
    (∀ (st : AppState) (now : ℝ) (events : List Event) (proj : Vec2 → Vec2),
      (frame st now events proj).1.selected =
        match get_click events with
        | none => st.selected
        | some c => lastHit proj c 10 5 (timeStep st now).bodies)
    ∧ ∀ (st : AppState) (now : ℝ) (events : List Event) (proj : Vec2 → Vec2),
        (∀ e ∈ events, pressPos e = none) →
        (frame st now events proj).1.selected = st.selected := by
  have h1 : ∀ (st : AppState) (now : ℝ) (events : List Event) (proj : Vec2 → Vec2),
      (frame st now events proj).1.selected =
        match get_click events with
        | none => st.selected
        | some c => lastHit proj c 10 5 (timeStep st now).bodies := by
    intro st now events proj
    show selectionAfterFrame proj (get_click events) 10 5 (timeStep st now).bodies
        st.selected = _
    rw [selectionAfterFrame_resolves]
  have hnone : ∀ (l : List Event), (∀ e ∈ l, pressPos e = none) →
      List.findSome? pressPos l = none := by
    intro l
    induction l with
    | nil => intro _; rfl
    | cons e rest ih =>
      intro h
      have he : pressPos e = none := h e (List.mem_cons_self e rest)
      have hrest := ih (fun x hx => h x (List.mem_cons_of_mem e hx))
      simp [List.findSome?_cons, he, hrest]
  refine ⟨h1, fun st now events proj hev => ?_⟩
  rw [h1, show get_click events = none from hnone events hev]

/-- Witness for C5: a frame whose only event is not a pointer press leaves the
selection unchanged. -/
theorem selection_state_machine_witness :
    (frame exState1 1 [Event.other] id).1.selected = exState1.selected :=
  selection_state_machine.2 exState1 1 [Event.other] id
    (by intro e he; rw [List.mem_singleton] at he; subst he; rfl)

/-- Claim C6 - the dt passed to the integrator is the wall-clock delta since
the previous frame times `SIMULATION_SPEED`; a missing previous instant (first
frame) runs no integration at all, so no body's position changes. -/
theorem time_step_scaled_dt :
    (∀ (st : AppState) (now : ℝ),
      (timeStep st now).bodies =
        match st.last_update with
        | none => st.bodies
        | some last_update =>
            advanceBodies st.bodies ((now - last_update) * SIMULATION_SPEED))
    ∧ ∀ (st : AppState) (now : ℝ), st.last_update = none →
        (timeStep st now).bodies = st.bodies := by
  have h1 : ∀ (st : AppState) (now : ℝ),
      (timeStep st now).bodies =
        match st.last_update with
        | none => st.bodies
        | some last_update =>
            advanceBodies st.bodies ((now - last_update) * SIMULATION_SPEED) := by
    intro st now
    cases h : st.last_update <;> simp [timeStep, h]
  exact ⟨h1, fun st now h => by rw [h1, h]⟩

/-- Witness for C6: a state with no previous instant keeps its bodies unchanged
through the time step. -/
theorem time_step_scaled_dt_witness :
    exState1.last_update = none ∧ (timeStep exState1 1).bodies = exState1.bodies :=
  ⟨rfl, time_step_scaled_dt.2 exState1 1 rfl⟩

/-- Claim C8 - within a frame the steps happen in order: the bodies are
advanced first (`timeStep`); the plot points, rings and overlay circles are all
computed from the post-advance positions; the selection update hit-tests the
click against the post-advance bodies starting from the previous frame's
selection; and the stats window is derived from the selection just updated in
this same frame. -/
theorem frame_step_ordering :
    ∀ (st : AppState) (now : ℝ) (events : List Event) (proj : Vec2 → Vec2),
      (frame st now events proj).1.bodies = (timeStep st now).bodies
      ∧ (frame st now events proj).2.plotPoints
          = (timeStep st now).bodies.map Body.position
      ∧ (frame st now events proj).2.rings
          = (timeStep st now).bodies.map (fun b => ringOf b.position)
      ∧ (frame st now events proj).2.overlayCenters
          = (timeStep st now).bodies.map (fun b => proj b.position)
      ∧ (frame st now events proj).1.selected
          = selectionAfterFrame proj (get_click events) 10 5 (timeStep st now).bodies
              st.selected
      ∧ (frame st now events proj).2.stats
          = ((frame st now events proj).1.selected.bind
              (fun i => (timeStep st now).bodies[i]?)).map statsFor :=
  fun _ _ _ _ => ⟨rfl, rfl, rfl, rfl, rfl, rfl⟩

/-- Claim C9 - when the frame's selection refers to body `b`, the stats window
is titled with the body's name and holds exactly two rows: `Mass:` with value
`mass_kg / EARTH_MASS_KG` (`EARTH_MASS_KG = 5.97219e24`) at one decimal and
suffix `x Earth`, and `Velocity:` with value `|velocity| / 1000` at one decimal
and suffix `km/s` (every body of this revision exposes a live velocity, and the
row is rendered whenever a body is selected). -/
theorem stats_panel_values (st : AppState) (now : ℝ) (events : List Event)
    (proj : Vec2 → Vec2) (i : Nat) (b : Body)
    (hsel : (frame st now events proj).1.selected = some i)
    (hb : (timeStep st now).bodies[i]? = some b) :
    (frame st now events proj).2.stats
      = some (b.name,
          [{ label := "Mass:", value := b.mass_kg / EARTH_MASS_KG, decimals := 1,
             suffix := " x Earth" },
           { label := "Velocity:", value := length b.velocity / 1000, decimals := 1,
             suffix := " km/s" }]) := by
  show ((frame st now events proj).1.selected.bind
      (fun j => (timeStep st now).bodies[j]?)).map statsFor = _
  rw [hsel]
  show ((timeStep st now).bodies[i]?).map statsFor = _
  rw [hb]
  rfl

/-- Witness for C9: with the second fixture body selected and no click, the
stats window shows its mass in Earth masses and its speed in km/s. -/
theorem stats_panel_values_witness :
    (frame exState2 1 [] id).2.stats
      = some (bodyB.name,
          [{ label := "Mass:", value := bodyB.mass_kg / EARTH_MASS_KG, decimals := 1,
             suffix := " x Earth" },
           { label := "Velocity:", value := length bodyB.velocity / 1000, decimals := 1,
             suffix := " km/s" }]) :=
  stats_panel_values exState2 1 [] id 1 bodyB rfl rfl

/-- Claim C10 - every frame draws, for every body in the list (the loop does
not skip the Sun), a ring computed from the body's current post-advance
position, and every point of `ringOf p` lies at distance `|p|` from the origin
- the ring radius is recomputed from the drifting position each frame, not
fixed at the initial orbital radius. -/
theorem orbit_ring_radius_from_current_position :
    (∀ (st : AppState) (now : ℝ) (events : List Event) (proj : Vec2 → Vec2),
      (frame st now events proj).2.rings
        = (frame st now events proj).1.bodies.map (fun b => ringOf b.position))
    ∧ ∀ (p q : Vec2), q ∈ ringOf p → length q = length p := by
  constructor
  · intro st now events proj; rfl
  · intro p q hq
    simp only [ringOf, List.mem_map] at hq
    obtain ⟨deg, hdeg, rfl⟩ := hq
    set rad := (deg : ℝ) * (Real.pi / 180) with hrad
    show Real.sqrt (length p * Real.cos rad * (length p * Real.cos rad)
        + length p * Real.sin rad * (length p * Real.sin rad)) = length p
    have hsq : length p * Real.cos rad * (length p * Real.cos rad)
        + length p * Real.sin rad * (length p * Real.sin rad)
        = length p ^ 2 * (Real.sin rad ^ 2 + Real.cos rad ^ 2) := by ring
    rw [hsq, Real.sin_sq_add_cos_sq, mul_one]
    exact Real.sqrt_sq (Real.sqrt_nonneg _)

/-- Witness for C10: the degree-0 point of the ring of a body at `(3, 4)` lies
at the same distance from the origin as the body. -/
theorem orbit_ring_radius_witness :
    ((length ((3 : ℝ), (4 : ℝ)) * Real.cos (((0 : ℕ) : ℝ) * (Real.pi / 180)),
      length ((3 : ℝ), (4 : ℝ)) * Real.sin (((0 : ℕ) : ℝ) * (Real.pi / 180))) : Vec2)
        ∈ ringOf ((3 : ℝ), (4 : ℝ))
    ∧ length ((length ((3 : ℝ), (4 : ℝ)) * Real.cos (((0 : ℕ) : ℝ) * (Real.pi / 180)),
        length ((3 : ℝ), (4 : ℝ)) * Real.sin (((0 : ℕ) : ℝ) * (Real.pi / 180))) : Vec2)
        = length ((3 : ℝ), (4 : ℝ)) := by
  have hmem : ((length ((3 : ℝ), (4 : ℝ)) * Real.cos (((0 : ℕ) : ℝ) * (Real.pi / 180)),
      length ((3 : ℝ), (4 : ℝ)) * Real.sin (((0 : ℕ) : ℝ) * (Real.pi / 180))) : Vec2)
      ∈ ringOf ((3 : ℝ), (4 : ℝ)) := by
    have h0 : (0 : ℕ) ∈ (List.range 361).filter (fun deg => deg % 2 = 0) :=
      List.mem_filter.2 ⟨List.mem_range.2 (by norm_num), by norm_num⟩
    have hm := List.mem_map_of_mem (fun deg : ℕ =>
      let rad := (deg : ℝ) * (Real.pi / 180)
      ((length ((3 : ℝ), (4 : ℝ))) * Real.cos rad,
       (length ((3 : ℝ), (4 : ℝ))) * Real.sin rad)) h0
    exact hm
  exact ⟨hmem, orbit_ring_radius_from_current_position.2 _ _ hmem⟩

end

end Aetherweave
